import Mathlib

/-!
# Verification of the SpreadsheetBench cell-range comparison engine

Shallow embedding of the evaluation core of `evaluation/parity_test.py`:
value normalization (`transform_value`), cell comparison (`compare_cell_value`),
column-letter coordinate resolution (`col_num2name`, `col_name2num`), range
expansion (`parse_cell_range`, `generate_cell_names`), workbook comparison
(`cell_level_compare`, `compare_workbooks`) and per-task scoring
(`run_evaluation`'s inner loop, here `score_task`).

Modelling conventions:
* Python numbers (int/float) are modelled exactly as integers and rationals;
  `round(x, n)` is modelled as round-half-to-even at `n` decimal digits
  (CPython's rounding of a decimal-exact value).  Binary floating point
  representation error and IEEE special values (inf/nan) are outside the model.
* `float(s)` on strings is modelled for decimal literals (optional sign,
  digits with at most one point, optional exponent, surrounding whitespace);
  `inf`/`nan` spellings and digit underscores are outside the model, such a
  string counts as unparseable.
* Python strings are `String`, with list-of-character helpers mirroring the
  character-level loops of the source (`str.split`, `str.strip`, slicing).
* Workbook loading (openpyxl) is external: a loaded workbook is a list of
  named sheets, a sheet maps a cell name to its cached `Value`; the outcome of
  `openpyxl.load_workbook` is passed to `compare_workbooks` as an
  `Except String Workbook` (error = the raised exception's text).
* A Python exception escaping a modelled function is `Option.none`.
-/

attribute [local semireducible] Rat.mul Rat.add Rat.inv Rat.sub Rat.ofScientific

/-- A raw openpyxl cell value as dispatched on by `transform_value`:
`None`, `int`, `float`, `str`, `datetime.time(h, m, s, microsecond)` or
`datetime.datetime(y, mo, d, h, m, s, microsecond)`. -/
inductive Value where
  | vNone : Value
  | vInt (n : ℤ) : Value
  | vFloat (q : ℚ) : Value
  | vStr (s : String) : Value
  | vTime (h m s micro : ℕ) : Value
  | vDatetime (y mo d hh mm ss micro : ℕ) : Value
deriving DecidableEq, Repr

/-- The Python runtime type of a value, as compared by `type(v1) != type(v2)`. -/
def pyType : Value → ℕ
  | Value.vNone => 0
  | Value.vInt _ => 1
  | Value.vFloat _ => 2
  | Value.vStr _ => 3
  | Value.vTime _ _ _ _ => 4
  | Value.vDatetime _ _ _ _ _ _ _ => 5

/-- Round-half-to-even to an integer (CPython `round` on an exact value). -/
def roundHalfEven (q : ℚ) : ℤ :=
  if q - Int.floor q < 1 / 2 then Int.floor q
  else if q - Int.floor q > 1 / 2 then Int.floor q + 1
  else if 2 ∣ Int.floor q then Int.floor q else Int.floor q + 1

/-- Python `round(q, ndigits)` (result is a float, modelled exactly). -/
def pyRound (q : ℚ) (ndigits : ℕ) : ℚ :=
  (roundHalfEven (q * 10 ^ ndigits) : ℚ) / 10 ^ ndigits

/-- Numeric value of a run of decimal digit characters. -/
def digitsVal (cs : List Char) : ℕ :=
  cs.foldl (fun a c => a * 10 + (c.toNat - 48)) 0

/-- Exponent suffix of a float literal: empty, or `e`/`E`, optional sign,
one or more digits.  `Option.none` = the suffix is not a valid exponent. -/
def parseExp : List Char → Option ℤ
  | [] => some 0
  | c :: rest =>
    if c = 'e' ∨ c = 'E' then
      let signAndRest : ℤ × List Char :=
        match rest with
        | '+' :: r => (1, r)
        | '-' :: r => (-1, r)
        | r => (1, r)
      let ds := signAndRest.2.takeWhile Char.isDigit
      let leftover := signAndRest.2.dropWhile Char.isDigit
      if ds.isEmpty ∨ ¬ leftover.isEmpty then Option.none
      else some (signAndRest.1 * (digitsVal ds : ℤ))
    else Option.none

/-- Apply a decimal exponent to a mantissa: `m * 10 ^ e`. -/
def applyExp (m : ℚ) (e : ℤ) : ℚ :=
  if 0 ≤ e then m * 10 ^ e.toNat else m / 10 ^ (-e).toNat

/-- Python `float(s)` on a string, for decimal literals: optional surrounding
whitespace, optional sign, digits with at most one decimal point (at least one
digit overall), optional exponent.  `Option.none` = `ValueError`. -/
def pyFloat? (s : String) : Option ℚ :=
  let cs := ((s.toList.dropWhile Char.isWhitespace).reverse.dropWhile
      Char.isWhitespace).reverse
  let signAndRest : ℚ × List Char :=
    match cs with
    | '+' :: r => (1, r)
    | '-' :: r => (-1, r)
    | r => (1, r)
  let ip := signAndRest.2.takeWhile Char.isDigit
  let cs1 := signAndRest.2.dropWhile Char.isDigit
  let fracAndRest : List Char × List Char :=
    match cs1 with
    | '.' :: r => (r.takeWhile Char.isDigit, r.dropWhile Char.isDigit)
    | r => ([], r)
  if ip.isEmpty ∧ fracAndRest.1.isEmpty then Option.none
  else
    match parseExp fracAndRest.2 with
    | Option.none => Option.none
    | some e =>
      let mant : ℚ :=
        (digitsVal ip : ℚ) + (digitsVal fracAndRest.1 : ℚ) / 10 ^ fracAndRest.1.length
      some (applyExp (signAndRest.1 * mant) e)

/-- `%0{w}d`: decimal digits of `n` left-padded with zeros to width `w`. -/
def padZeros (w n : ℕ) : List Char :=
  let ds := (toString n).toList
  List.replicate (w - ds.length) '0' ++ ds

/-- Characters of Python `str(datetime.time(h, m, s, micro))`:
`HH:MM:SS` plus `.ffffff` when the microsecond field is nonzero. -/
def pyTimeStr (h m s micro : ℕ) : List Char :=
  padZeros 2 h ++ [':'] ++ padZeros 2 m ++ [':'] ++ padZeros 2 s ++
    (if micro = 0 then [] else ['.'] ++ padZeros 6 micro)

/-- Python slice `s[:-3]`: all characters but the last three. -/
def pyCut3 (cs : List Char) : List Char :=
  cs.take (cs.length - 3)

/-- `datetime._days_in_month` table for a non-leap year. -/
def monthDays : List ℕ := [31, 28, 31, 30, 31, 30, 31, 31, 30, 31, 30, 31]

/-- Gregorian leap-year test used by `datetime`. -/
def isLeap (y : ℕ) : Bool :=
  y % 4 = 0 ∧ (y % 100 ≠ 0 ∨ y % 400 = 0)

/-- Days in all years strictly before year `y` (`datetime._days_before_year`). -/
def daysBeforeYear (y : ℕ) : ℕ :=
  (y - 1) * 365 + (y - 1) / 4 - (y - 1) / 100 + (y - 1) / 400

/-- Days in year `y` strictly before month `mo` (`datetime._days_before_month`). -/
def daysBeforeMonth (y mo : ℕ) : ℕ :=
  (monthDays.take (mo - 1)).sum + (if 2 < mo ∧ isLeap y then 1 else 0)

/-- `datetime.date.toordinal`: proleptic Gregorian day number, day 1 being
`0001-01-01`. -/
def toordinal (y mo d : ℕ) : ℕ :=
  daysBeforeYear y + daysBeforeMonth y mo + d

/-- `datetime_to_float` from the source: `dt - datetime(1899, 12, 30)` gives a
`timedelta` whose `days` is the ordinal difference and whose `seconds` is the
seconds-of-day of `dt` (its `microseconds` field is not read), and the result
is `delta.days + delta.seconds / 86400.0`. -/
def datetime_to_float (y mo d hh mm ss : ℕ) : ℚ :=
  ((toordinal y mo d : ℤ) - (toordinal 1899 12 30 : ℤ) : ℤ) +
    ((hh * 3600 + mm * 60 + ss : ℕ) : ℚ) / 86400

/-- `transform_value` from the source: numbers round to 2 decimals as floats,
times stringify and lose their last 3 characters, datetimes become their Excel
serial rounded to 0 decimals, strings parse as floats when possible, `None`
passes through. -/
def transform_value : Value → Value
  | Value.vInt n => Value.vFloat (pyRound (n : ℚ) 2)
  | Value.vFloat q => Value.vFloat (pyRound q 2)
  | Value.vTime h m s micro => Value.vStr (String.mk (pyCut3 (pyTimeStr h m s micro)))
  | Value.vDatetime y mo d hh mm ss _ =>
      Value.vFloat (pyRound (datetime_to_float y mo d hh mm ss) 0)
  | Value.vStr s =>
      match pyFloat? s with
      | some q => Value.vFloat (pyRound q 2)
      | Option.none => Value.vStr s
  | Value.vNone => Value.vNone

/-- `compare_cell_value` from the source: normalize both sides, accept any
combination of empty string and `None`, then require equal runtime type and
equal value. -/
def compare_cell_value (v1 v2 : Value) : Bool :=
  let w1 := transform_value v1
  let w2 := transform_value v2
  if (w1 = Value.vStr "" ∧ w2 = Value.vNone) ∨ (w1 = Value.vNone ∧ w2 = Value.vStr "") then
    true
  else if (w1 = Value.vStr "" ∧ w2 = Value.vStr "") ∨ (w1 = Value.vNone ∧ w2 = Value.vNone) then
    true
  else if pyType w1 ≠ pyType w2 then
    false
  else
    decide (w1 = w2)

/-- The body of `col_num2name`'s `while n > 0` loop, with explicit fuel.  Each
iteration replaces `n` by `(n - 1) / 26`, which is strictly smaller, so
`n.toNat` iterations always suffice (`col_num2name_go_fuel` below). -/
def col_num2name_go : ℕ → ℤ → String
  | 0, _ => ""
  | fuel + 1, n =>
    if n ≤ 0 then ""
    else
      col_num2name_go fuel ((n - 1) / 26) ++
        String.mk [Char.ofNat (65 + ((n - 1) % 26).toNat)]

/-- `col_num2name` from the source: bijective base-26 column letters,
`chr(65 + remainder)` prepended at each step of `divmod(n - 1, 26)`. -/
def col_num2name (n : ℤ) : String :=
  col_num2name_go n.toNat n

/-- The character loop of `col_name2num`: `num = num * 26 + (ord(c) - ord A + 1)`
(`ord A = 65`), over a list of characters. -/
def col_name2num_chars (cs : List Char) : ℤ :=
  cs.foldl (fun num c => num * 26 + ((c.toNat : ℤ) - 65 + 1)) 0

/-- `col_name2num` from the source. -/
def col_name2num (name : String) : ℤ :=
  col_name2num_chars name.toList

/-- Python `str.split` with a one-character separator (keeps empty pieces). -/
def pySplit (sep : Char) : List Char → List (List Char)
  | [] => [[]]
  | c :: rest =>
    match pySplit sep rest with
    | [] => [[]]
    | cur :: parts => if c = sep then [] :: cur :: parts else (c :: cur) :: parts

/-- Python `str.strip` with a one-character strip set. -/
def pyStrip (strip : Char) (cs : List Char) : List Char :=
  ((cs.dropWhile (· = strip)).reverse.dropWhile (· = strip)).reverse

/-- The character-classification loop of `parse_cell_range`: digits go to the
row accumulator, everything else to the column accumulator. -/
def splitCellChars (cs : List Char) : List Char × List Char :=
  cs.foldl
    (fun p c => if c.isDigit then (p.1, p.2 ++ [c]) else (p.1 ++ [c], p.2))
    ([], [])

/-- `parse_cell_range` from the source: split on `:` into exactly two corner
cells (anything else raises: `Option.none`), split each corner into letters
and digits, resolve the column letters and parse the row digits (`int` of an
empty digit run raises). -/
def parse_cell_range (range_str : String) : Option ((ℤ × ℕ) × (ℤ × ℕ)) :=
  match pySplit ':' range_str.toList with
  | [start_cell, end_cell] =>
    let ps := splitCellChars start_cell
    let pe := splitCellChars end_cell
    if ps.2.isEmpty ∨ pe.2.isEmpty then Option.none
    else
      some ((col_name2num_chars ps.1, digitsVal ps.2),
            (col_name2num_chars pe.1, digitsVal pe.2))
  | _ => Option.none

/-- Python `range(a, b)` over integers. -/
def intRange (a b : ℤ) : List ℤ :=
  (List.range (b - a).toNat).map (fun i => a + i)

/-- `generate_cell_names` from the source: a range expression without `:` is a
single coordinate; otherwise all `{col}{row}` strings of the inclusive
rectangle, columns as the outer loop, rows as the inner loop. -/
def generate_cell_names (range_str : String) : Option (List String) :=
  if (range_str.toList.contains ':') = false then some [range_str]
  else
    match parse_cell_range range_str with
    | Option.none => Option.none
    | some ((start_col, start_row), (end_col, end_row)) =>
      let columns := (intRange start_col (end_col + 1)).map col_num2name
      some (columns.flatMap (fun col =>
        (List.range' start_row (end_row + 1 - start_row)).map
          (fun row => col ++ toString row)))

/-- A loaded worksheet: openpyxl's `ws[cell_name].value`, abstracted as a total
map from cell name to cached cell value. -/
structure Worksheet where
  cells : String → Value

/-- A loaded workbook: ordered named sheets. -/
structure Workbook where
  sheets : List (String × Worksheet)

/-- openpyxl's `wb.sheetnames`. -/
def Workbook.sheetnames (wb : Workbook) : List String :=
  wb.sheets.map Prod.fst

/-- openpyxl's `wb[name]` (`Option.none` = `KeyError`) and the membership test
`name in wb`. -/
def Workbook.get? (wb : Workbook) (name : String) : Option Worksheet :=
  (wb.sheets.find? (fun p => p.1 == name)).map Prod.snd

/-- Diagnostic rendering of a cell value inside mismatch messages.  This
abstracts Python `repr`; its exact text is irrelevant to every property proved
below (only the `worksheet not found` / `File not exist` / empty messages are
specified). -/
def pyRepr : Value → String
  | Value.vNone => "None"
  | Value.vInt n => toString n
  | Value.vFloat q => toString q.num ++ "/" ++ toString q.den
  | Value.vStr s => s
  | Value.vTime h m s micro => String.mk (pyTimeStr h m s micro)
  | Value.vDatetime y mo d hh mm ss _ =>
      toString y ++ "-" ++ toString mo ++ "-" ++ toString d ++ " " ++
        String.mk (pyTimeStr hh mm ss 0)

/-- The cell loop of `cell_level_compare`: first mismatching coordinate wins. -/
def compare_cells_loop (ws_gt ws_proc : Worksheet) : List String → Bool × String
  | [] => (true, "")
  | name :: rest =>
    if compare_cell_value (ws_gt.cells name) (ws_proc.cells name) then
      compare_cells_loop ws_gt ws_proc rest
    else
      (false, "Value diff at " ++ name ++ ": gt=" ++ pyRepr (ws_gt.cells name) ++
        ", proc=" ++ pyRepr (ws_proc.cells name))

/-- `cell_level_compare` from the source: a sheet missing from the produced
workbook is a regular failure; a sheet missing from the ground truth or a
malformed range raises (`Option.none`). -/
def cell_level_compare (wb_gt wb_proc : Workbook) (sheet_name cell_range : String) :
    Option (Bool × String) :=
  if (wb_proc.get? sheet_name).isNone then some (false, "worksheet not found")
  else
    match wb_gt.get? sheet_name, wb_proc.get? sheet_name,
        generate_cell_names cell_range with
    | some ws_gt, some ws_proc, some names =>
      some (compare_cells_loop ws_gt ws_proc names)
    | _, _, _ => Option.none

/-- One `answer_position` segment of `compare_workbooks`: an explicit
`Sheet!Range` prefix (sheet stripped of surrounding quotes, more or fewer than
one `!` raises), or the ground truth's first sheet (raises on a sheetless
workbook); either way the range is stripped of surrounding quotes.  The quote
character is `Char.ofNat 39`. -/
def parse_segment (wb_gt : Workbook) (scr : List Char) : Option (String × String) :=
  if scr.contains '!' then
    match pySplit '!' scr with
    | [sn, cr] =>
      some (String.mk (pyStrip (Char.ofNat 39) sn), String.mk (pyStrip (Char.ofNat 39) cr))
    | _ => Option.none
  else
    match wb_gt.sheetnames with
    | [] => Option.none
    | sn :: _ => some (sn, String.mk (pyStrip (Char.ofNat 39) scr))

/-- The segment loop of `compare_workbooks`: every segment must pass, the
first failing segment's message is returned. -/
def eval_segments (wb_gt wb_proc : Workbook) : List (List Char) → Option (Bool × String)
  | [] => some (true, "")
  | scr :: rest =>
    match parse_segment wb_gt scr with
    | Option.none => Option.none
    | some (sheet_name, cell_range) =>
      match cell_level_compare wb_gt wb_proc sheet_name cell_range with
      | Option.none => Option.none
      | some (result, msg) =>
        if result then eval_segments wb_gt wb_proc rest else some (false, msg)

/-- `compare_workbooks` from the source.  Filesystem and openpyxl are
external: `proc_exists` models `os.path.exists(proc_file)` and `load_gt`,
`load_proc` model the two `openpyxl.load_workbook` calls (`Except.error e` =
an exception with text `e`, caught and returned as a failure). -/
def compare_workbooks (proc_exists : Bool) (load_gt load_proc : Except String Workbook)
    (answer_position : String) : Option (Bool × String) :=
  if proc_exists = false then some (false, "File not exist")
  else
    match load_gt with
    | Except.error e => some (false, e)
    | Except.ok wb_gt =>
      match load_proc with
      | Except.error e => some (false, e)
      | Except.ok wb_proc =>
        eval_segments wb_gt wb_proc (pySplit ',' answer_position.toList)

/-- One trial of `run_evaluation`'s inner loop: `compare_workbooks` inside
`try`, any exception (`Option.none`) downgraded to a failed trial, the boolean
collected as `int(result)`. -/
def trial_outcome : Option (Bool × String) → ℕ
  | Option.none => 0
  | some (result, _) => if result then 1 else 0

/-- The per-task record built by `run_evaluation`. -/
structure TaskScore where
  test_case_results : List ℕ
  soft : ℚ
  hard : ℕ
deriving Repr, DecidableEq

/-- The per-task aggregation of `run_evaluation`: `soft` is
`count(1) / len`, `hard` is `0 if 0 in results else 1`. -/
def score_task (outcomes : List (Option (Bool × String))) : TaskScore :=
  let rs := outcomes.map trial_outcome
  { test_case_results := rs
    soft := (rs.count 1 : ℚ) / (rs.length : ℚ)
    hard := if 0 ∈ rs then 0 else 1 }

/-- A one-sheet workbook used to instantiate the workbook-level theorems. -/
def sampleSheet : Worksheet := { cells := fun _ => Value.vNone }

/-- Its containing workbook, whose only sheet is named `S`. -/
def sampleBook : Workbook := { sheets := [("S", sampleSheet)] }

theorem roundHalfEven_int_add (k : ℤ) (r : ℚ) (h0 : 0 ≤ r) (h1 : r < 1 / 2) :
    roundHalfEven ((k : ℚ) + r) = k := by
  have hfl : Int.floor ((k : ℚ) + r) = k := by
    rw [add_comm, Int.floor_add_int]
    have : Int.floor r = 0 := Int.floor_eq_zero_iff.mpr ⟨h0, by linarith⟩
    omega
  unfold roundHalfEven
  rw [hfl]
  have hc : (k : ℚ) + r - ((k : ℤ) : ℚ) < 1 / 2 := by linarith
  rw [if_pos hc]

theorem pyRound_zero (q : ℚ) : pyRound q 0 = ((roundHalfEven q : ℤ) : ℚ) := by
  unfold pyRound
  norm_num

theorem compare_of_transform_eq_float (v1 v2 : Value) (x : ℚ)
    (h1 : transform_value v1 = Value.vFloat x) (h2 : transform_value v2 = Value.vFloat x) :
    compare_cell_value v1 v2 = true := by
  simp [compare_cell_value, h1, h2]

/-- C1: `compare_cell_value` returns true exactly when, after normalizing both
sides with `transform_value`, either each side is the empty string or `None`
(any of the four combinations), or the two normalized values have the same
Python type and equal value; a type mismatch after normalization fails even if
the string forms agree. -/
theorem c1_compare_cell_value_iff (a b : Value) :
    compare_cell_value a b = true ↔
      (((transform_value a = Value.vStr "" ∨ transform_value a = Value.vNone) ∧
        (transform_value b = Value.vStr "" ∨ transform_value b = Value.vNone)) ∨
       (pyType (transform_value a) = pyType (transform_value b) ∧
        transform_value a = transform_value b)) := by
  simp only [compare_cell_value]
  generalize transform_value a = w1
  generalize transform_value b = w2
  by_cases h1 : (w1 = Value.vStr "" ∧ w2 = Value.vNone) ∨ (w1 = Value.vNone ∧ w2 = Value.vStr "")
  · rw [if_pos h1]
    refine iff_of_true rfl ?_
    rcases h1 with ⟨hA, hB⟩ | ⟨hA, hB⟩
    · exact Or.inl ⟨Or.inl hA, Or.inr hB⟩
    · exact Or.inl ⟨Or.inr hA, Or.inl hB⟩
  · rw [if_neg h1]
    by_cases h2 : (w1 = Value.vStr "" ∧ w2 = Value.vStr "") ∨ (w1 = Value.vNone ∧ w2 = Value.vNone)
    · rw [if_pos h2]
      refine iff_of_true rfl ?_
      rcases h2 with ⟨hA, hB⟩ | ⟨hA, hB⟩
      · exact Or.inl ⟨Or.inl hA, Or.inl hB⟩
      · exact Or.inl ⟨Or.inr hA, Or.inr hB⟩
    · rw [if_neg h2]
      by_cases h3 : pyType w1 = pyType w2
      · rw [if_neg (not_not_intro h3)]
        simp only [decide_eq_true_eq]
        constructor
        · intro he
          exact Or.inr ⟨h3, he⟩
        · rintro (⟨hA, hB⟩ | ⟨-, he⟩)
          · tauto
          · exact he
      · rw [if_pos h3]
        simp only [Bool.false_eq_true, false_iff]
        rintro (⟨hA, hB⟩ | ⟨hT, -⟩)
        · tauto
        · exact h3 hT

/-- C2: normalization rounds every numeric value — integer, float, or string
parsing as a float — to two decimal places as a float, leaves an unparseable
string as the original string, and therefore `equal(5, "5.00")` is true,
`equal(5, 5.004)` is true, `equal(5, 5.006)` is false and `equal(5, "five")`
is false. -/
theorem c2_numeric_normalization :
    (∀ n : ℤ, transform_value (Value.vInt n) = Value.vFloat (pyRound (n : ℚ) 2)) ∧
    (∀ q : ℚ, transform_value (Value.vFloat q) = Value.vFloat (pyRound q 2)) ∧
    (∀ (s : String) (q : ℚ), pyFloat? s = some q →
      transform_value (Value.vStr s) = Value.vFloat (pyRound q 2)) ∧
    (∀ s : String, pyFloat? s = Option.none →
      transform_value (Value.vStr s) = Value.vStr s) ∧
    compare_cell_value (Value.vInt 5) (Value.vStr "5.00") = true ∧
    compare_cell_value (Value.vInt 5) (Value.vFloat (5004 / 1000)) = true ∧
    compare_cell_value (Value.vInt 5) (Value.vFloat (5006 / 1000)) = false ∧
    compare_cell_value (Value.vInt 5) (Value.vStr "five") = false := by
  refine ⟨fun n => rfl, fun q => rfl, fun s q h => ?_, fun s h => ?_,
    by decide, by decide, by decide, by decide⟩
  · simp only [transform_value, h]
  · simp only [transform_value, h]

theorem c2_numeric_normalization_witness :
    pyFloat? "5.00" = some 5 ∧
    transform_value (Value.vStr "5.00") = Value.vFloat (pyRound 5 2) ∧
    pyFloat? "five" = Option.none ∧
    transform_value (Value.vStr "five") = Value.vStr "five" :=
  ⟨by decide, c2_numeric_normalization.2.2.1 "5.00" 5 (by decide),
   by decide, c2_numeric_normalization.2.2.2.1 "five" (by decide)⟩

/-- C3 (counterexample): comparison of two full timestamps does not ignore
time-of-day — `2020-01-01 00:00:00` and `2020-01-01 13:00:00` differ only by
hours yet compare unequal, because their Excel serials round to different
whole days (43831 vs 43832). -/
theorem c3_datetime_hours_counterexample :
    compare_cell_value (Value.vDatetime 2020 1 1 0 0 0 0)
      (Value.vDatetime 2020 1 1 13 0 0 0) = false ∧
    transform_value (Value.vDatetime 2020 1 1 0 0 0 0) = Value.vFloat 43831 ∧
    transform_value (Value.vDatetime 2020 1 1 13 0 0 0) = Value.vFloat 43832 := by
  refine ⟨by decide, by decide, by decide⟩

/-- C3 (amended): normalization converts a full date-time to its Excel-epoch
serial number (days since 1899-12-30 plus seconds-of-day/86400, microseconds
discarded) rounded half-to-even to 0 decimal places; consequently two
timestamps on the same date both strictly before noon compare equal, but
timestamps differing only by hours may compare unequal when rounding crosses
a day boundary. -/
theorem c3_datetime_whole_day_amended (y mo d h1 m1 s1 mic1 h2 m2 s2 mic2 : ℕ)
    (ha : h1 * 3600 + m1 * 60 + s1 < 43200)
    (hb : h2 * 3600 + m2 * 60 + s2 < 43200) :
    (∀ hh mm ss mic, transform_value (Value.vDatetime y mo d hh mm ss mic) =
      Value.vFloat ((roundHalfEven (datetime_to_float y mo d hh mm ss) : ℤ) : ℚ)) ∧
    compare_cell_value (Value.vDatetime y mo d h1 m1 s1 mic1)
      (Value.vDatetime y mo d h2 m2 s2 mic2) = true := by
  have key : ∀ hh mm ss : ℕ, hh * 3600 + mm * 60 + ss < 43200 →
      roundHalfEven (datetime_to_float y mo d hh mm ss) =
        (toordinal y mo d : ℤ) - (toordinal 1899 12 30 : ℤ) := by
    intro hh mm ss hlt
    unfold datetime_to_float
    apply roundHalfEven_int_add
    · positivity
    · rw [div_lt_iff₀ (by norm_num : (0 : ℚ) < 86400)]
      have hcast : ((hh * 3600 + mm * 60 + ss : ℕ) : ℚ) < 43200 := by exact_mod_cast hlt
      linarith
  have htr : ∀ hh mm ss mic, transform_value (Value.vDatetime y mo d hh mm ss mic) =
      Value.vFloat ((roundHalfEven (datetime_to_float y mo d hh mm ss) : ℤ) : ℚ) := by
    intro hh mm ss mic
    simp only [transform_value, pyRound_zero]
  refine ⟨htr, ?_⟩
  apply compare_of_transform_eq_float _ _
    (((toordinal y mo d : ℤ) - (toordinal 1899 12 30 : ℤ) : ℤ) : ℚ)
  · rw [htr, key h1 m1 s1 ha]
  · rw [htr, key h2 m2 s2 hb]

theorem c3_datetime_whole_day_witness :
    (0 * 3600 + 0 * 60 + 0 < 43200) ∧
    (11 * 3600 + 59 * 60 + 59 < 43200) ∧
    compare_cell_value (Value.vDatetime 2020 1 2 0 0 0 0)
      (Value.vDatetime 2020 1 2 11 59 59 999999) = true :=
  ⟨by decide, by decide,
   (c3_datetime_whole_day_amended 2020 1 2 0 0 0 0 11 59 59 999999
     (by decide) (by decide)).2⟩

theorem col_name2num_chars_append (cs : List Char) (c : Char) :
    col_name2num_chars (cs ++ [c]) =
      col_name2num_chars cs * 26 + ((c.toNat : ℤ) - 65 + 1) := by
  unfold col_name2num_chars
  rw [List.foldl_append]
  rfl

theorem col_name2num_string_append (s : String) (c : Char) :
    col_name2num (s ++ String.mk [c]) =
      col_name2num s * 26 + ((c.toNat : ℤ) - 65 + 1) := by
  unfold col_name2num
  rw [show (s ++ String.mk [c]).toList = s.toList ++ [c] from rfl]
  exact col_name2num_chars_append s.toList c

theorem char_toNat_upper (r : ℕ) (h : r < 26) : (Char.ofNat (65 + r)).toNat = 65 + r := by
  interval_cases r <;> decide

theorem col_roundtrip_go : ∀ (fuel : ℕ) (n : ℤ), 0 ≤ n → n.toNat ≤ fuel →
    col_name2num (col_num2name_go fuel n) = n := by
  intro fuel
  induction fuel with
  | zero =>
    intro n h0 hf
    have hn : n = 0 := by omega
    subst hn
    rfl
  | succ fuel ih =>
    intro n h0 hf
    unfold col_num2name_go
    by_cases hn : n ≤ 0
    · rw [if_pos hn]
      have : n = 0 := le_antisymm hn h0
      subst this
      rfl
    · rw [if_neg hn]
      push_neg at hn
      have hm0 : 0 ≤ (n - 1) / 26 := Int.ediv_nonneg (by omega) (by omega)
      have hmlt : (n - 1) / 26 ≤ n - 1 := Int.ediv_le_self 26 (by omega)
      have hmf : ((n - 1) / 26).toNat ≤ fuel := by omega
      have hr0 : 0 ≤ (n - 1) % 26 := Int.emod_nonneg _ (by omega)
      have hrlt : (n - 1) % 26 < 26 := Int.emod_lt_of_pos _ (by omega)
      rw [col_name2num_string_append, ih _ hm0 hmf,
        char_toNat_upper ((n - 1) % 26).toNat (by omega)]
      have hdm : 26 * ((n - 1) / 26) + (n - 1) % 26 = n - 1 := Int.ediv_add_emod _ _
      have hcast : (((n - 1) % 26).toNat : ℤ) = (n - 1) % 26 := Int.toNat_of_nonneg hr0
      push_cast [hcast]
      omega

/-- C5: the coordinate resolver round-trips — for every positive column
number `n`, `col_name2num (col_num2name n) = n`. -/
theorem c5_column_roundtrip (n : ℤ) (hn : 0 < n) :
    col_name2num (col_num2name n) = n :=
  col_roundtrip_go n.toNat n (le_of_lt hn) (le_refl _)

theorem c5_column_roundtrip_witness :
    (0 : ℤ) < 20000 ∧ col_name2num (col_num2name 20000) = 20000 :=
  ⟨by decide, c5_column_roundtrip 20000 (by decide)⟩

/-- C8 (counterexample): `col_name2num` is not case-insensitive — the
lowercase form `"a"` resolves to 33 while the uppercase form `"A"` resolves
to 1. -/
theorem c8_case_insensitive_counterexample :
    col_name2num "a" = 33 ∧ col_name2num "A" = 1 ∧
    col_name2num "a" ≠ col_name2num "A" := by
  refine ⟨by decide, by decide, by decide⟩

/-- C8 (amended): `col_name2num` is case-sensitive; each character of the
input contributes `value = value * 26 + (ord c - ord A + 1)` using the
character's actual code point, so uppercase strings get the bijective base-26
value while a lowercase letter contributes 32 more than its uppercase form. -/
theorem c8_letters_contribution_amended :
    (∀ (cs : List Char) (c : Char), col_name2num_chars (cs ++ [c]) =
      col_name2num_chars cs * 26 + ((c.toNat : ℤ) - 65 + 1)) ∧
    col_name2num "A" = 1 ∧ col_name2num "Z" = 26 ∧ col_name2num "AA" = 27 ∧
    col_name2num "a" = 33 :=
  ⟨col_name2num_chars_append, by decide, by decide, by decide, by decide⟩

/-- C4: `expand_range` returns the single coordinate unchanged when the range
expression contains no `:`, and expands a two-corner expression to every
`{col}{row}` combination of the inclusive rectangle with columns as the outer
loop and rows as the inner loop: `A1:B2 ↦ [A1, A2, B1, B2]`, `B2:B2 ↦ [B2]`. -/
theorem c4_expand_range :
    (∀ s : String, (s.toList.contains ':') = false → generate_cell_names s = some [s]) ∧
    generate_cell_names "A1:B2" = some ["A1", "A2", "B1", "B2"] ∧
    generate_cell_names "B2:B2" = some ["B2"] := by
  refine ⟨fun s h => ?_, by decide, by decide⟩
  unfold generate_cell_names
  rw [h]
  rfl

theorem c4_expand_range_witness :
    ("C3".toList.contains ':') = false ∧ generate_cell_names "C3" = some ["C3"] :=
  ⟨by decide, c4_expand_range.1 "C3" (by decide)⟩

theorem padZeros_length_two (n : ℕ) (h : n < 100) : (padZeros 2 n).length = 2 := by
  interval_cases n <;> decide

theorem padZeros_six_length_ge (n : ℕ) : 3 ≤ (padZeros 6 n).length := by
  unfold padZeros
  simp only [List.length_append, List.length_replicate]
  omega

theorem pyCut3_append (A B : List Char) (hB : 3 ≤ B.length) :
    pyCut3 (A ++ B) = A ++ B.take (B.length - 3) := by
  unfold pyCut3
  rw [List.length_append, List.take_append_eq_append_take]
  congr 1
  · exact List.take_of_length_le (by omega)
  · congr 1
    omega

/-- C7 (counterexample): normalization of a time value does not leave
`HH:MM:SS` — for `datetime.time(1, 2, 3, 456789)`, stringifying gives the
15-character `01:02:03.456789` and dropping the last three characters leaves
`01:02:03.456`, not `01:02:03`. -/
theorem c7_time_cut_counterexample :
    transform_value (Value.vTime 1 2 3 456789) = Value.vStr "01:02:03.456" ∧
    transform_value (Value.vTime 1 2 3 456789) ≠ Value.vStr "01:02:03" := by
  refine ⟨by decide, by decide⟩

/-- C7 (amended): normalization of a time value renders it as a string and
drops the last 3 characters; when the microsecond field is nonzero the
rendering is `HH:MM:SS.ffffff` and the drop keeps the first three fractional
digits, leaving millisecond precision `HH:MM:SS.fff`; when the microsecond
field is zero the rendering is `HH:MM:SS` and the drop removes the seconds,
leaving `HH:MM`. -/
theorem c7_time_cut_amended (h m s mic : ℕ) (hh : h < 24) (hm : m < 60) (hs : s < 60) :
    (mic ≠ 0 → transform_value (Value.vTime h m s mic) =
      Value.vStr (String.mk (padZeros 2 h ++ [':'] ++ padZeros 2 m ++ [':'] ++
        padZeros 2 s ++ ['.'] ++ (padZeros 6 mic).take ((padZeros 6 mic).length - 3)))) ∧
    (transform_value (Value.vTime h m s 0) =
      Value.vStr (String.mk (padZeros 2 h ++ [':'] ++ padZeros 2 m))) ∧
    transform_value (Value.vTime 1 2 3 456789) = Value.vStr "01:02:03.456" ∧
    transform_value (Value.vTime 1 2 3 0) = Value.vStr "01:02" := by
  have lh := padZeros_length_two h (by omega)
  have lm := padZeros_length_two m (by omega)
  have ls := padZeros_length_two s (by omega)
  refine ⟨fun hmic => ?_, ?_, by decide, by decide⟩
  · show Value.vStr (String.mk (pyCut3 (pyTimeStr h m s mic))) = _
    unfold pyTimeStr
    rw [if_neg hmic]
    simp only [← List.append_assoc]
    rw [pyCut3_append _ _ (le_trans (by norm_num) (padZeros_six_length_ge mic))]
  · show Value.vStr (String.mk (pyCut3 (pyTimeStr h m s 0))) = _
    unfold pyTimeStr
    rw [if_pos rfl]
    simp only [List.append_nil, ← List.append_assoc]
    unfold pyCut3
    have hlen : ((((padZeros 2 h ++ [':']) ++ padZeros 2 m) ++ [':']) ++ padZeros 2 s).length - 3 = 5 := by
      simp only [List.length_append, List.length_cons, List.length_nil, lh, lm, ls]
    have hX : ((padZeros 2 h ++ [':']) ++ padZeros 2 m).length = 5 := by
      simp only [List.length_append, List.length_cons, List.length_nil, lh, lm]
    rw [hlen, List.append_assoc ((padZeros 2 h ++ [':']) ++ padZeros 2 m),
      List.take_left' hX]

theorem c7_time_cut_witness :
    ((1 : ℕ) < 24 ∧ (2 : ℕ) < 60 ∧ (3 : ℕ) < 60) ∧
    transform_value (Value.vTime 1 2 3 0) = Value.vStr "01:02" :=
  ⟨by decide, (c7_time_cut_amended 1 2 3 456789 (by decide) (by decide) (by decide)).2.2.2⟩

theorem cell_level_missing (wb_gt wb_proc : Workbook) (sn cr : String)
    (h : (wb_proc.get? sn).isNone = true) :
    cell_level_compare wb_gt wb_proc sn cr = some (false, "worksheet not found") := by
  unfold cell_level_compare
  rw [h]
  rfl

theorem eval_single_fail (wb_gt wb_proc : Workbook) (cs : List Char) (sn cr m : String)
    (h1 : parse_segment wb_gt cs = some (sn, cr))
    (h2 : cell_level_compare wb_gt wb_proc sn cr = some (false, m)) :
    eval_segments wb_gt wb_proc [cs] = some (false, m) := by
  simp [eval_segments, h1, h2]

/-- C6: the workbook comparison reports structural failures as failed
comparisons, never as unhandled exceptions: a missing produced file yields
`(false, "File not exist")`; an exception text from loading either workbook
is caught and returned as the failure message; a worksheet absent from the
produced workbook yields `(false, "worksheet not found")`. -/
theorem c6_structural_failures (wb_gt wb_proc : Workbook)
    (lg lp : Except String Workbook) (e : String) (ap : String) :
    compare_workbooks false lg lp ap = some (false, "File not exist") ∧
    compare_workbooks true (Except.error e) lp ap = some (false, e) ∧
    compare_workbooks true (Except.ok wb_gt) (Except.error e) ap = some (false, e) ∧
    ((wb_proc.get? "Sheet1").isNone = true →
      compare_workbooks true (Except.ok wb_gt) (Except.ok wb_proc) "Sheet1!A1" =
        some (false, "worksheet not found")) := by
  refine ⟨rfl, rfl, rfl, fun h => ?_⟩
  have h1 : parse_segment wb_gt ("Sheet1!A1".toList) = some ("Sheet1", "A1") := rfl
  have h2 := cell_level_missing wb_gt wb_proc "Sheet1" "A1" h
  exact eval_single_fail wb_gt wb_proc ("Sheet1!A1".toList) "Sheet1" "A1"
    "worksheet not found" h1 h2

theorem c6_structural_failures_witness :
    (sampleBook.get? "Sheet1").isNone = true ∧
    compare_workbooks true (Except.ok sampleBook) (Except.ok sampleBook) "Sheet1!A1" =
      some (false, "worksheet not found") :=
  ⟨rfl, (c6_structural_failures sampleBook sampleBook (Except.ok sampleBook)
    (Except.ok sampleBook) "err" "A1").2.2.2 rfl⟩

/-- C9: the task scorer collects one result per trial, an exception during a
trial counting as a failure; the soft score is the passing fraction and the
hard score is 1 exactly when every trial passed; for trials
`[pass, fail, pass]` the soft score is 2/3 (displayed as 0.667 at three
decimals) and the hard score is 0. -/
theorem c9_task_scoring (outcomes : List (Option (Bool × String))) :
    trial_outcome Option.none = 0 ∧
    (score_task outcomes).soft =
      ((outcomes.map trial_outcome).count 1 : ℚ) / ((outcomes.length : ℕ) : ℚ) ∧
    ((score_task outcomes).hard = 1 ↔ ∀ o ∈ outcomes, trial_outcome o = 1) ∧
    score_task [some (true, ""), some (false, "x"), some (true, "")] =
      { test_case_results := [1, 0, 1], soft := 2 / 3, hard := 0 } ∧
    pyRound (2 / 3) 3 = 667 / 1000 := by
  refine ⟨rfl, ?_, ?_, by decide, by decide⟩
  · simp [score_task]
  · by_cases hmem : (0 : ℕ) ∈ outcomes.map trial_outcome
    · rcases List.mem_map.mp hmem with ⟨o, ho, hto⟩
      simp only [score_task, hmem, if_true]
      constructor
      · intro h01
        exact absurd h01 (by norm_num)
      · intro hall
        exact absurd (hall o ho) (by omega)
    · simp only [score_task, hmem, if_false]
      constructor
      · intro _ o ho
        have h01 : trial_outcome o = 0 ∨ trial_outcome o = 1 := by
          rcases o with - | ⟨b, msg⟩
          · exact Or.inl rfl
          · cases b
            · exact Or.inl rfl
            · exact Or.inr rfl
        rcases h01 with h | h
        · exact absurd (List.mem_map.mpr ⟨o, ho, h⟩) hmem
        · exact h
      · intro _
        trivial

theorem flatMap_const_nil {α β : Type} (L : List α) :
    (L.flatMap (fun _ => ([] : List β))) = [] := by
  induction L with
  | nil => rfl
  | cons a L ih => simp [ih]

/-- C10: a two-corner range whose corners are reversed (start column after
end column, or start row after end row) expands to the empty sequence, so the
range evaluation succeeds with `(true, "")` without comparing any cell,
provided both workbooks have the worksheet. -/
theorem c10_reversed_range (s : String) (sc ec : ℤ) (sr er : ℕ)
    (wb_gt wb_proc : Workbook) (sn : String) (ws_gt ws_proc : Worksheet)
    (hc : (s.toList.contains ':') = true)
    (hp : parse_cell_range s = some ((sc, sr), (ec, er)))
    (hrev : ec < sc ∨ er < sr)
    (hg : wb_gt.get? sn = some ws_gt)
    (hpr : wb_proc.get? sn = some ws_proc) :
    generate_cell_names s = some [] ∧
    cell_level_compare wb_gt wb_proc sn s = some (true, "") := by
  have hgen : generate_cell_names s = some [] := by
    unfold generate_cell_names
    rw [hc, hp]
    rcases hrev with hlt | hlt
    · have hez : (ec + 1 - sc).toNat = 0 := by omega
      have : intRange sc (ec + 1) = [] := by
        unfold intRange
        rw [hez]
        rfl
      simp [this]
    · have hrz : er + 1 - sr = 0 := by omega
      simp [hrz, flatMap_const_nil]
  refine ⟨hgen, ?_⟩
  unfold cell_level_compare
  rw [hpr, hg, hgen]
  rfl

theorem c10_reversed_range_witness :
    ("B2:A1".toList.contains ':') = true ∧
    parse_cell_range "B2:A1" = some ((2, 2), (1, 1)) ∧
    ((1 : ℤ) < 2 ∨ (1 : ℕ) < 2) ∧
    sampleBook.get? "S" = some sampleSheet ∧
    generate_cell_names "B2:A1" = some [] ∧
    cell_level_compare sampleBook sampleBook "S" "B2:A1" = some (true, "") :=
  ⟨by decide, by decide, Or.inl (by decide), rfl,
   c10_reversed_range "B2:A1" 2 1 2 1 sampleBook sampleBook "S" sampleSheet sampleSheet
     (by decide) (by decide) (Or.inl (by decide)) rfl rfl⟩
